import Mathlib

/-!
Verification of the inventory-dashboard core (estoq.py)

Shallow embedding of the loader, filter engine and aggregate views of the
inventory-analysis script `src/estoq.py`, together with theorems settling the
specification claims about them.

Modelling conventions:
* A pandas `Timestamp` is modelled as a record carrying the calendar year and
  month (what `.dt.year` / `.dt.month` read) plus an absolute day number
  (what subtraction of timestamps measures in days).
* Numeric dataframe columns are modelled as exact rationals (`ℚ`); the values
  the script manipulates are ordinary finite numbers, except for the
  damage-percentage column, whose IEEE division-by-zero behaviour is modelled
  explicitly by the type `PValor` (finite value, `±∞`, or `NaN`).
* `pd.to_datetime` with coerce is modelled by an `Option Timestamp`
  field on raw rows (`none` = `NaT`).
* pandas `sort_values` is modelled as a stable sort (insertion sort) on the
  given column; `groupby` (with its default `sort = True`) lists the group
  keys in ascending order; `unique` keeps first occurrences in row order.
-/

namespace Estoq

/-- Model of a pandas `Timestamp`: calendar year and month (as read by
`.dt.year` and `.dt.month`) plus an absolute day number (so that the
difference of two timestamps in days is the difference of `epochDay`). -/
structure Timestamp where
  year : Int
  month : Int
  epochDay : Int
deriving DecidableEq, Repr

/-- One row of `df_estoque.csv` as read by `pd.read_csv`, after
`pd.to_datetime` on the `data ultima compra` column: the date is `none`
exactly when the tolerant parser produced `NaT`. -/
structure RawRow where
  produto : String
  fabricante : String
  quantidadeFisica : ℚ
  quantidadeSolicitada : ℚ
  quantidadeReservada : ℚ
  quantidadeDisponivel : ℚ
  quantidadeAvariada : ℚ
  custoLiquidoEntrada : ℚ
  dataUltimaCompra : Option Timestamp
deriving DecidableEq, Repr

/-- A row of the working dataframe after `dropna` on the date column:
the last-purchase date is present and parsed. -/
structure Registro where
  produto : String
  fabricante : String
  quantidadeFisica : ℚ
  quantidadeSolicitada : ℚ
  quantidadeReservada : ℚ
  quantidadeDisponivel : ℚ
  quantidadeAvariada : ℚ
  custoLiquidoEntrada : ℚ
  dataUltimaCompra : Timestamp
deriving DecidableEq, Repr

/-- Keep a raw row iff its `data ultima compra` parsed (`dropna` keeps it). -/
def parseRow (r : RawRow) : Option Registro :=
  r.dataUltimaCompra.map fun d =>
    ⟨r.produto, r.fabricante, r.quantidadeFisica, r.quantidadeSolicitada,
     r.quantidadeReservada, r.quantidadeDisponivel, r.quantidadeAvariada,
     r.custoLiquidoEntrada, d⟩

/-- Model of `carregar_dados` (lines 18–35): parse the date column (errors set to coerce), drop rows whose
date failed to parse, and fail (the script returns `None` with a warning)
exactly when the remaining dataframe is empty. -/
def carregarDados (rows : List RawRow) : Option (List Registro) :=
  let df := rows.filterMap parseRow
  if df.isEmpty then none else some df

/-- The `MESES_ABREVIADOS` dictionary of `estoq.py`. -/
def MESES_ABREVIADOS : List (Int × String) :=
  [(1, "Jan"), (2, "Fev"), (3, "Mar"), (4, "Abr"), (5, "Mai"), (6, "Jun"),
   (7, "Jul"), (8, "Ago"), (9, "Set"), (10, "Out"), (11, "Nov"), (12, "Dez")]

/-- Line 64: the derived year column, `.dt.year` of the parsed date. -/
def anoCompra (r : Registro) : Int := r.dataUltimaCompra.year

/-- Line 65: the derived month column, `.dt.month` of the parsed date. -/
def mesCompra (r : Registro) : Int := r.dataUltimaCompra.month

/-- The year selector: the label Todos or one specific year offered by the data. -/
inductive AnoFiltro where
  | todos
  | ano (y : Int)
deriving DecidableEq, Repr

/-- pandas `Series.unique`: first occurrence of each value, in row order. -/
def uniqueFirst {α : Type} [DecidableEq α] : List α → List α
  | [] => []
  | x :: xs => x :: (uniqueFirst xs).filter (fun y => y != x)

/-- Ascending comparison through a key function, for modelling sorts on a
column (`ascending=True`, and the sorted-keys order of `groupby`). -/
def ascBy {α : Type} {β : Type} [LinearOrder β] (f : α → β) (a b : α) : Prop :=
  f a ≤ f b

instance {α β : Type} [LinearOrder β] (f : α → β) : DecidableRel (ascBy f) :=
  fun a b => inferInstanceAs (Decidable (f a ≤ f b))

instance {α β : Type} [LinearOrder β] (f : α → β) : IsTotal α (ascBy f) :=
  ⟨fun a b => le_total (f a) (f b)⟩

instance {α β : Type} [LinearOrder β] (f : α → β) : IsTrans α (ascBy f) :=
  ⟨fun _ _ _ h₁ h₂ => le_trans h₁ h₂⟩

/-- Descending comparison through a key function, for modelling
`sort_values(by=col, ascending=False)` (stable on ties). -/
def descBy {α : Type} {β : Type} [LinearOrder β] (f : α → β) (a b : α) : Prop :=
  f b ≤ f a

instance {α β : Type} [LinearOrder β] (f : α → β) : DecidableRel (descBy f) :=
  fun a b => inferInstanceAs (Decidable (f b ≤ f a))

instance {α β : Type} [LinearOrder β] (f : α → β) : IsTotal α (descBy f) :=
  ⟨fun a b => le_total (f b) (f a)⟩

instance {α β : Type} [LinearOrder β] (f : α → β) : IsTrans α (descBy f) :=
  ⟨fun _ _ _ h₁ h₂ => le_trans h₂ h₁⟩

/-- The month list offered by the month selector: empty unless a specific year
is selected, otherwise the abbreviations of the months present in that year,
sorted by month number (the `sorted(..., key=...)` over `MESES_ABREVIADOS`). -/
def mesesDisponiveis (df : List Registro) (anoFiltro : AnoFiltro) : List String :=
  match anoFiltro with
  | .todos => []
  | .ano y =>
    let mesesNoAno := uniqueFirst ((df.filter (fun r => anoCompra r == y)).map mesCompra)
    let abreviados := mesesNoAno.filterMap fun m =>
      (MESES_ABREVIADOS.find? (fun p => p.1 == m)).map (·.2)
    abreviados.insertionSort (ascBy fun s => (MESES_ABREVIADOS.map (·.2)).indexOf s)

/-- The options of the month selectbox: the label Todos followed by `meses_disponiveis`.
`st.selectbox` can only return one of these. -/
def todosMeses (df : List Registro) (anoFiltro : AnoFiltro) : List String :=
  "Todos" :: mesesDisponiveis df anoFiltro

/-- The reverse lookup loop: first month number whose abbreviation equals the
selected month, `none` if no abbreviation matches. -/
def numMesSelecionado (mes : String) : Option Int :=
  (MESES_ABREVIADOS.find? (fun p => p.2 == mes)).map (·.1)

/-- The filter block of `estoq.py` (`df_filtrado = df_estoque.copy()` followed
by the year and month row filters). -/
def applyFilters (df : List Registro) (anoFiltro : AnoFiltro) (mesFiltro : String) :
    List Registro :=
  let df₁ := match anoFiltro with
    | .todos => df
    | .ano y => df.filter (fun r => anoCompra r == y)
  if mesFiltro == "Todos" then df₁
  else
    match numMesSelecionado mesFiltro with
    | none => df₁
    | some n => df₁.filter (fun r => mesCompra r == n)

/-! Aggregate views. -/

/-- The headline metrics of the overview section: distinct product count,
total physical quantity, and total stock value `Σ fisica × custo`. -/
structure VisaoGeral where
  totalProdutos : Nat
  totalItensFisicos : ℚ
  valorTotalEstoque : ℚ
deriving DecidableEq, Repr

/-- Lines 110–112: `nunique`, `sum`, and the value sum of the filtered set. -/
def visaoGeral (df : List Registro) : VisaoGeral where
  totalProdutos := (uniqueFirst (df.map (·.produto))).length
  totalItensFisicos := (df.map (·.quantidadeFisica)).sum
  valorTotalEstoque := (df.map fun r => r.quantidadeFisica * r.custoLiquidoEntrada).sum

/-- Line 120: group the filtered set by manufacturer and sum the physical quantity:
one `(fabricante, summed quantity)` pair per manufacturer present, listed in
ascending key order (pandas `groupby` sorts group keys by default). -/
def dfAgrupadoFabricante (df : List Registro) : List (String × ℚ) :=
  ((uniqueFirst (df.map (·.fabricante))).insertionSort (ascBy id)).map fun k =>
    (k, ((df.filter (fun r => r.fabricante == k)).map (·.quantidadeFisica)).sum)

/-- Line 123: sort the groups descending by summed physical quantity, take 10. -/
def dfTop10Fabricantes (df : List Registro) : List (String × ℚ) :=
  ((dfAgrupadoFabricante df).insertionSort (descBy Prod.snd)).take 10

/-- Modelled from the spec: the top-manufacturers grouping as the specification
words it, with the groups listed in *first-seen* manufacturer order (instead
of the ascending key order pandas `groupby` produces), so that the stable
descending sort breaks ties by first-seen order.  Used only as the refinement
reference for the tie-breaking clause. -/
def dfAgrupadoFabricanteFirstSeen (df : List Registro) : List (String × ℚ) :=
  (uniqueFirst (df.map (·.fabricante))).map fun k =>
    (k, ((df.filter (fun r => r.fabricante == k)).map (·.quantidadeFisica)).sum)

/-- Modelled from the spec: top-10 manufacturers with ties broken by the
first-seen manufacturer order in the filtered set. -/
def dfTop10FabricantesFirstSeen (df : List Registro) : List (String × ℚ) :=
  ((dfAgrupadoFabricanteFirstSeen df).insertionSort (descBy Prod.snd)).take 10

/-- Strict lexicographic order on manufacturer groups: larger summed quantity
first, ties by ascending manufacturer name. -/
def lexFabricante (a b : String × ℚ) : Prop :=
  b.2 < a.2 ∨ (a.2 = b.2 ∧ a.1 < b.1)

/-- One line of the quantity-comparison table (per-product `groupby` aggregation). -/
structure ResumoProduto where
  produto : String
  quantidadeFisica : ℚ
  quantidadeSolicitada : ℚ
  quantidadeReservada : ℚ
  quantidadeDisponivel : ℚ
deriving DecidableEq, Repr

/-- Lines 141–146: group the filtered set by product and sum the four quantity columns:
per-product sums, products listed in ascending key order. -/
def dfResumoQuantidades (df : List Registro) : List ResumoProduto :=
  ((uniqueFirst (df.map (·.produto))).insertionSort (ascBy id)).map fun k =>
    let g := df.filter (fun r => r.produto == k)
    ⟨k, (g.map (·.quantidadeFisica)).sum, (g.map (·.quantidadeSolicitada)).sum,
     (g.map (·.quantidadeReservada)).sum, (g.map (·.quantidadeDisponivel)).sum⟩

/-- Lines 166–169: rows with `quantidade disponivel < limite` and
`quantidade disponivel ≥ 0`, sorted descending by `quantidade solicitada`. -/
def produtosBaixaDisponibilidade (df : List Registro) (limite : ℚ) : List Registro :=
  (df.filter fun r =>
      decide (r.quantidadeDisponivel < limite) && decide (0 ≤ r.quantidadeDisponivel))
    |>.insertionSort (descBy (·.quantidadeSolicitada))

/-- A pandas float cell arising from division: a finite rational, an infinity
(IEEE `x / 0` for `x ≠ 0`), or `NaN` (IEEE `0 / 0`). -/
inductive PValor where
  | num (q : ℚ)
  | posInf
  | negInf
  | nan
deriving DecidableEq, Repr

/-- IEEE-style division of two exact column values, as pandas performs it on
float64 columns: finite quotient when the divisor is nonzero, signed infinity
for `x / 0` with `x ≠ 0`, `NaN` for `0 / 0`. -/
def pdiv (a b : ℚ) : PValor :=
  if b = 0 then
    if a = 0 then .nan else if 0 < a then .posInf else .negInf
  else .num (a / b)

/-- Multiplication of such a cell by the positive constant `100`. -/
def pmul100 : PValor → PValor
  | .num q => .num (q * 100)
  | .posInf => .posInf
  | .negInf => .negInf
  | .nan => .nan

/-- `fillna(0)`: replaces `NaN` (and only `NaN` — infinities are not null). -/
def fillna0 : PValor → PValor
  | .nan => .num 0
  | v => v

/-- Lines 184–191: keep rows with `quantidade avariada > 0`, attach
`porcentagem_avaria = (avariada / fisica) * 100` with `fillna(0)` applied,
and sort descending by `quantidade avariada`. -/
def dfAvariado (df : List Registro) : List (Registro × PValor) :=
  ((df.filter fun r => decide (0 < r.quantidadeAvariada)).map fun r =>
      (r, fillna0 (pmul100 (pdiv r.quantidadeAvariada r.quantidadeFisica))))
    |>.insertionSort (descBy (·.1.quantidadeAvariada))

/-- Line 205: days elapsed since the last purchase of a row. -/
def diasDesdeUltimaCompra (hoje : Int) (r : Registro) : Int :=
  hoje - r.dataUltimaCompra.epochDay

/-- Lines 211–214: rows whose last purchase is older than `limite_dias` days
and with positive physical quantity, sorted descending by age in days. -/
def estoqueParado (hoje : Int) (df : List Registro) (limiteDias : Int) :
    List (Registro × Int) :=
  ((df.map fun r => (r, diasDesdeUltimaCompra hoje r)).filter fun p =>
      decide (limiteDias < p.2) && decide (0 < p.1.quantidadeFisica))
    |>.insertionSort (descBy Prod.snd)

/-- Lines 236–239: rows with `quantidade disponivel < min_disponivel` and
`quantidade solicitada > 0`, sorted descending by `quantidade solicitada`. -/
def produtosCriticos (df : List Registro) (minDisponivel : ℚ) : List Registro :=
  (df.filter fun r =>
      decide (r.quantidadeDisponivel < minDisponivel) && decide (0 < r.quantidadeSolicitada))
    |>.insertionSort (descBy (·.quantidadeSolicitada))

/-- One line of the per-manufacturer rollup (per-manufacturer `groupby` aggregation). -/
structure DesempenhoFabricante where
  fabricante : String
  totalQuantidadeFisica : ℚ
  totalQuantidadeAvariada : ℚ
  totalQuantidadeDisponivel : ℚ
  totalQuantidadeSolicitada : ℚ
  contagemProdutos : Nat
deriving DecidableEq, Repr

/-- Lines 266–275: per-manufacturer sums and distinct-product count, sorted
descending by total physical quantity. -/
def dfDesempenhoFabricante (df : List Registro) : List DesempenhoFabricante :=
  (((uniqueFirst (df.map (·.fabricante))).insertionSort (ascBy id)).map fun k =>
      let g := df.filter (fun r => r.fabricante == k)
      ⟨k, (g.map (·.quantidadeFisica)).sum, (g.map (·.quantidadeAvariada)).sum,
       (g.map (·.quantidadeDisponivel)).sum, (g.map (·.quantidadeSolicitada)).sum,
       (uniqueFirst (g.map (·.produto))).length⟩)
    |>.insertionSort (descBy (·.totalQuantidadeFisica))

/-! The filtered dataframe as mutable state.

The script keeps the filtered set in the shared variable `df_filtrado`; the
stale-stock section assigns a new column to it (line 205).  We model the
contents of that variable explicitly: its rows plus the optional extra column. -/

/-- The state of the `df_filtrado` variable: its rows and, once the
stale-stock section has run, the added `dias_desde_ultima_compra` column. -/
structure DfFiltrado where
  rows : List Registro
  diasDesdeUltimaCompraCol : Option (List Int)
deriving DecidableEq, Repr

/-- The analytical sections of the dashboard, one constructor per view. -/
inductive View where
  | visaoGeral
  | topFabricantes
  | resumoQuantidades
  | baixaDisponibilidade
  | analiseAvarias
  | estoqueParado
  | produtosCriticos
  | desempenhoFabricante
deriving DecidableEq, Repr

/-- Effect of computing one view on the `df_filtrado` variable: every section
reads it, and only the stale-stock section writes to it, assigning the
`dias_desde_ultima_compra` column for all rows (line 205). -/
def runView (v : View) (hoje : Int) (df : DfFiltrado) : DfFiltrado :=
  match v with
  | .estoqueParado =>
      { df with diasDesdeUltimaCompraCol := some (df.rows.map (diasDesdeUltimaCompra hoje)) }
  | _ => df

/-! Concrete sample data, used by witnesses and counterexamples. -/

/-- A sample parsed timestamp (2024-01-10). -/
def tsJan : Timestamp := ⟨2024, 1, 19732⟩

/-- A sample parsed timestamp (2024-06-01). -/
def tsJun : Timestamp := ⟨2024, 6, 19875⟩

/-- Sample record A of the scenario in the spec: phys=100, avail=5, req=20, damaged=10. -/
def regA : Registro := ⟨"A", "X", 100, 20, 0, 5, 10, 1, tsJan⟩

/-- Sample record B of the scenario in the spec: phys=50, avail=60, req=0, damaged=0. -/
def regB : Registro := ⟨"B", "X", 50, 0, 0, 60, 0, 2, tsJun⟩

/-- A record whose damaged quantity is positive while its physical quantity is
zero: the damage-percentage division is `3 / 0`. -/
def regAvInf : Registro := ⟨"c", "Z", 0, 0, 0, 0, 3, 1, tsJan⟩

/-- A raw row whose date failed to parse (`NaT`). -/
def rawNat : RawRow := ⟨"n", "W", 1, 1, 1, 1, 0, 1, none⟩

/-- A raw row whose date parsed. -/
def rawOk : RawRow := ⟨"o", "W", 2, 1, 1, 1, 0, 1, some tsJan⟩

/-- The parsed form of `rawOk`. -/
def regOk : Registro := ⟨"o", "W", 2, 1, 1, 1, 0, 1, tsJan⟩

/-- Two records with equal physical quantity whose manufacturers appear in the
order `"B"` then `"A"`: a tie for the top-manufacturers sort. -/
def regMfB : Registro := ⟨"p1", "B", 5, 0, 0, 0, 0, 1, tsJan⟩

/-- See `regMfB`. -/
def regMfA : Registro := ⟨"p2", "A", 5, 0, 0, 0, 0, 1, tsJan⟩

/-! Helper lemmas. -/

theorem mem_uniqueFirst {α : Type} [DecidableEq α] {a : α} :
    ∀ {l : List α}, a ∈ uniqueFirst l ↔ a ∈ l
  | [] => Iff.rfl
  | x :: xs => by
    simp only [uniqueFirst, List.mem_cons, List.mem_filter, bne_iff_ne]
    constructor
    · rintro (rfl | ⟨h, _⟩)
      · exact Or.inl rfl
      · exact Or.inr (mem_uniqueFirst.mp h)
    · rintro (rfl | h)
      · exact Or.inl rfl
      · by_cases hx : a = x
        · exact Or.inl hx
        · exact Or.inr ⟨mem_uniqueFirst.mpr h, hx⟩

theorem uniqueFirst_nodup {α : Type} [DecidableEq α] : ∀ l : List α, (uniqueFirst l).Nodup
  | [] => List.nodup_nil
  | x :: xs => by
    simp only [uniqueFirst]
    refine List.Nodup.cons (fun hmem => ?_) ((uniqueFirst_nodup xs).filter _)
    have hx := (List.mem_filter.mp hmem).2
    simp at hx

/-! Claim theorems. -/

/-- Claim C7: For every record set, applying the filter engine with
`yearFilter = "all"` and `monthFilter = "all"` returns the record set
unchanged in both content and relative row order: the filter is an identity. -/
theorem applyFilters_todos_identidade (df : List Registro) :
    applyFilters df .todos ("Todos") = df := rfl

/-- Claim C2: The month filter is a no-op unless a specific year is selected:
with `yearFilter = "all"` the month selector offers only `"Todos"`, so for
every month selection `m` it can produce, filtering with `m` coincides with
filtering with `"Todos"`. -/
theorem mes_filtro_noop_sem_ano (df : List Registro) (m : String)
    (hm : m ∈ todosMeses df .todos) :
    applyFilters df .todos m = applyFilters df .todos ("Todos") := by
  simp only [todosMeses, mesesDisponiveis, List.mem_singleton] at hm
  subst hm
  rfl

/-- Witness for `mes_filtro_noop_sem_ano` at a concrete record set and month. -/
theorem mes_filtro_noop_sem_ano_witness :
    applyFilters [regA, regB] .todos ("Todos") = applyFilters [regA, regB] .todos ("Todos") :=
  mes_filtro_noop_sem_ano [regA, regB] "Todos" (by decide)

/-- Claim C10: With a specific year selected, a month label that is neither
`"Todos"` nor one of the twelve abbreviations applies no month constraint:
the result equals the purely year-filtered set. -/
theorem mes_desconhecido_sem_restricao (df : List Registro) (y : Int) (m : String)
    (h₁ : m ≠ "Todos") (h₂ : m ∉ MESES_ABREVIADOS.map Prod.snd) :
    applyFilters df (.ano y) m = applyFilters df (.ano y) "Todos" := by
  have hnum : numMesSelecionado m = none := by
    rw [numMesSelecionado, Option.map_eq_none', List.find?_eq_none]
    intro p hp hbeq
    exact h₂ (List.mem_map.mpr ⟨p, hp, beq_iff_eq.mp hbeq⟩)
  simp [applyFilters, h₁, hnum]

/-- Witness for `mes_desconhecido_sem_restricao` at the unrecognized label `"Foo"`. -/
theorem mes_desconhecido_sem_restricao_witness :
    applyFilters [regA, regB] (.ano 2024) "Foo" =
      applyFilters [regA, regB] (.ano 2024) "Todos" :=
  mes_desconhecido_sem_restricao [regA, regB] 2024 "Foo" (by decide) (by decide)

/-- Claim C6: `carregar_dados` drops (without erroring) every row whose
last-purchase date fails to parse; it fails exactly when zero records remain
after the dropping (including an initially empty source); a successful load
returns precisely the rows with a parsed, non-null date, in order. -/
theorem carregarDados_spec (rows : List RawRow) :
    (carregarDados rows = none ↔ ∀ r ∈ rows, r.dataUltimaCompra = none) ∧
    ∀ out, carregarDados rows = some out → out ≠ [] ∧ out = rows.filterMap parseRow := by
  have hnil : rows.filterMap parseRow = [] ↔ ∀ r ∈ rows, r.dataUltimaCompra = none := by
    rw [List.filterMap_eq_nil_iff]
    exact ⟨fun h r hr => Option.map_eq_none'.mp (h r hr),
           fun h r hr => Option.map_eq_none'.mpr (h r hr)⟩
  by_cases h : rows.filterMap parseRow = []
  · have hc : carregarDados rows = none := by simp [carregarDados, h]
    exact ⟨by rw [hc]; exact iff_of_true rfl (hnil.mp h),
           fun out hout => by rw [hc] at hout; cases hout⟩
  · refine ⟨?_, fun out hout => ?_⟩
    · rw [carregarDados]
      simp only [List.isEmpty_iff, h, if_false]
      simp only [reduceCtorEq, false_iff]
      intro hall
      exact h (hnil.mpr hall)
    · rw [carregarDados] at hout
      simp only [List.isEmpty_iff, h, if_false, Option.some.injEq] at hout
      exact ⟨fun he => h (hout.trans he), hout.symm⟩

/-- Witness for `carregarDados_spec`: a source with one unparseable-date row
and one parseable row loads exactly the parseable row. -/
theorem carregarDados_spec_witness :
    [regOk] ≠ [] ∧ [regOk] = [rawNat, rawOk].filterMap parseRow :=
  (carregarDados_spec [rawNat, rawOk]).2 [regOk] (by decide)

/-- Claim C5: On an empty filtered set every view yields an empty result (and
the overview yields zero counts and sums); each view is a total function, so
no error is raised and empty is an ordinary displayable state. -/
theorem views_vazio_sem_erro (hoje limiteDias : Int) (limiteDisp minDisp : ℚ) :
    visaoGeral [] = ⟨0, 0, 0⟩ ∧
    dfTop10Fabricantes [] = [] ∧
    dfResumoQuantidades [] = [] ∧
    produtosBaixaDisponibilidade [] limiteDisp = [] ∧
    dfAvariado [] = [] ∧
    estoqueParado hoje [] limiteDias = [] ∧
    produtosCriticos [] minDisp = [] ∧
    dfDesempenhoFabricante [] = [] :=
  ⟨rfl, rfl, rfl, rfl, rfl, rfl, rfl, rfl⟩

/-- Claim C8: For every filtered record set and threshold `t ≥ 0`, the
low-availability view returns exactly the records with
`0 ≤ available_quantity < t` (excluding every record with negative
availability), sorted descending by requested quantity. -/
theorem produtosBaixaDisponibilidade_spec (df : List Registro) (limite : ℚ)
    (hl : 0 ≤ limite) :
    (∀ r, r ∈ produtosBaixaDisponibilidade df limite ↔
        r ∈ df ∧ 0 ≤ r.quantidadeDisponivel ∧ r.quantidadeDisponivel < limite) ∧
    (produtosBaixaDisponibilidade df limite).Perm
      (df.filter fun r =>
        decide (0 ≤ r.quantidadeDisponivel) && decide (r.quantidadeDisponivel < limite)) ∧
    (produtosBaixaDisponibilidade df limite).Pairwise
      (fun a b => b.quantidadeSolicitada ≤ a.quantidadeSolicitada) := by
  refine ⟨?_, ?_, ?_⟩
  · intro r
    rw [produtosBaixaDisponibilidade, List.mem_insertionSort, List.mem_filter]
    simp only [Bool.and_eq_true, decide_eq_true_eq]
    tauto
  · refine (List.perm_insertionSort _ _).trans (List.Perm.of_eq ?_)
    exact List.filter_congr fun r _ => Bool.and_comm _ _
  · exact List.sorted_insertionSort (descBy fun r : Registro => r.quantidadeSolicitada) _

/-- Witness for `produtosBaixaDisponibilidade_spec` at threshold 10 on the
sample records of the spec. -/
theorem produtosBaixaDisponibilidade_spec_witness :
    (∀ r, r ∈ produtosBaixaDisponibilidade [regA, regB] 10 ↔
        r ∈ [regA, regB] ∧ 0 ≤ r.quantidadeDisponivel ∧ r.quantidadeDisponivel < 10) ∧
    (produtosBaixaDisponibilidade [regA, regB] 10).Perm
      ([regA, regB].filter fun r =>
        decide (0 ≤ r.quantidadeDisponivel) && decide (r.quantidadeDisponivel < 10)) ∧
    (produtosBaixaDisponibilidade [regA, regB] 10).Pairwise
      (fun a b => b.quantidadeSolicitada ≤ a.quantidadeSolicitada) :=
  produtosBaixaDisponibilidade_spec [regA, regB] 10 (by decide)

/-- Claim C9: For every filtered record set and availability threshold, the
critical-products view returns exactly the records with
`available_quantity < t` and `requested_quantity > 0`, sorted descending by
requested quantity; in particular, at threshold 10 on records A and
B it returns A only. -/
theorem produtosCriticos_spec (df : List Registro) (minDisp : ℚ) :
    (∀ r, r ∈ produtosCriticos df minDisp ↔
        r ∈ df ∧ r.quantidadeDisponivel < minDisp ∧ 0 < r.quantidadeSolicitada) ∧
    (produtosCriticos df minDisp).Perm
      (df.filter fun r =>
        decide (r.quantidadeDisponivel < minDisp) && decide (0 < r.quantidadeSolicitada)) ∧
    (produtosCriticos df minDisp).Pairwise
      (fun a b => b.quantidadeSolicitada ≤ a.quantidadeSolicitada) ∧
    produtosCriticos [regA, regB] 10 = [regA] := by
  refine ⟨?_, List.perm_insertionSort _ _,
    List.sorted_insertionSort (descBy fun r : Registro => r.quantidadeSolicitada) _, by decide⟩
  intro r
  rw [produtosCriticos, List.mem_insertionSort, List.mem_filter]
  simp only [Bool.and_eq_true, decide_eq_true_eq]

/-- Counterexample to claim C1: A record kept by the damage view (damaged `3 > 0`)
with physical quantity `0` gets damage percentage `+∞`, not `0`:
`fillna(0)` replaces only `NaN`, and `3 / 0` is `+∞`, which reaches the
output.  So the division-by-zero result is not defined to be `0`. -/
theorem dfAvariado_divzero_counterexample :
    dfAvariado [regAvInf] = [(regAvInf, PValor.posInf)] ∧
    PValor.posInf ≠ PValor.num 0 := by decide

/-- Claim C1 as amended: For every record kept by the damage view (damaged `> 0`):
its percentage is never `NaN` (a `0/0` cannot arise, so `fillna(0)` never
fires on this column); when `physical ≠ 0` the percentage is the exact ratio
`damaged / physical × 100`; when `physical = 0` it is `+∞`, not `0`.  A record
with `physical = 0` and `damaged = 0` is excluded from the view by the
`damaged > 0` filter. -/
theorem dfAvariado_porcentagem_amended (df : List Registro) :
    ∀ r p, (r, p) ∈ dfAvariado df →
      0 < r.quantidadeAvariada ∧ p ≠ PValor.nan ∧
      (r.quantidadeFisica ≠ 0 →
        p = PValor.num (r.quantidadeAvariada / r.quantidadeFisica * 100)) ∧
      (r.quantidadeFisica = 0 → p = PValor.posInf) := by
  intro r p hmem
  rw [dfAvariado, List.mem_insertionSort, List.mem_map] at hmem
  obtain ⟨r', hr', heq⟩ := hmem
  obtain ⟨hr'df, hav⟩ := List.mem_filter.mp hr'
  obtain ⟨rfl, rfl⟩ := Prod.mk.injEq .. ▸ heq
  have hav' : 0 < r'.quantidadeAvariada := by simpa using hav
  by_cases hf : r'.quantidadeFisica = 0
  · have hp : pdiv r'.quantidadeAvariada r'.quantidadeFisica = .posInf := by
      rw [pdiv, if_pos hf, if_neg (ne_of_gt hav'), if_pos hav']
    exact ⟨hav', by simp [hp, pmul100, fillna0], fun hf' => absurd hf hf',
           fun _ => by simp [hp, pmul100, fillna0]⟩
  · have hp : pdiv r'.quantidadeAvariada r'.quantidadeFisica =
        .num (r'.quantidadeAvariada / r'.quantidadeFisica) := by
      rw [pdiv, if_neg hf]
    exact ⟨hav', by simp [hp, pmul100, fillna0], fun _ => by simp [hp, pmul100, fillna0],
           fun hf' => absurd hf' hf⟩

/-- Witness for `dfAvariado_porcentagem_amended` at the zero-physical record:
its percentage in the view is `+∞`. -/
theorem dfAvariado_porcentagem_amended_witness :
    0 < regAvInf.quantidadeAvariada ∧ PValor.posInf ≠ PValor.nan ∧
    (regAvInf.quantidadeFisica ≠ 0 →
      PValor.posInf =
        PValor.num (regAvInf.quantidadeAvariada / regAvInf.quantidadeFisica * 100)) ∧
    (regAvInf.quantidadeFisica = 0 → PValor.posInf = PValor.posInf) :=
  dfAvariado_porcentagem_amended [regAvInf] regAvInf PValor.posInf (by decide)

/-- Counterexample to claim C3: Computing the stale-stock view mutates the filtered
set: it assigns the `dias_desde_ultima_compra` column to `df_filtrado` itself,
so the columns afterwards are not what they were before. -/
theorem estoqueParado_muta_df_filtrado :
    runView .estoqueParado 20000 ⟨[regA], none⟩ ≠ ⟨[regA], none⟩ := by decide

/-- Claim C3 as amended: Filtering and the views never change the rows (content or
order) of the filtered set, and every view except the stale-stock view leaves
it entirely unchanged; the stale-stock view adds the derived
days-since-last-purchase column (rows untouched). -/
theorem runView_preserva_linhas (v : View) (hoje : Int) (df : DfFiltrado) :
    (runView v hoje df).rows = df.rows ∧
    (v ≠ View.estoqueParado → runView v hoje df = df) := by
  cases v <;> simp [runView]

/-- Witness for `runView_preserva_linhas` at the damage view on a one-row set. -/
theorem runView_preserva_linhas_witness :
    (runView .analiseAvarias 20000 ⟨[regA], none⟩).rows = (DfFiltrado.mk [regA] none).rows ∧
    runView .analiseAvarias 20000 ⟨[regA], none⟩ = ⟨[regA], none⟩ :=
  have h := runView_preserva_linhas .analiseAvarias 20000 ⟨[regA], none⟩
  ⟨h.1, h.2 (by decide)⟩

/-! Stability of the top-manufacturers sort. -/

theorem strA_le_B : ("A" : String) ≤ "B" := by
  rw [String.le_iff_toList_le]; decide

theorem strB_not_le_A : ¬ ("B" : String) ≤ "A" := by
  rw [String.le_iff_toList_le]; decide

theorem orderedInsert_descBy_lex {x : String × ℚ} :
    ∀ {l : List (String × ℚ)}, l.Pairwise lexFabricante →
      (∀ y ∈ l, x.1 < y.1) →
      (l.orderedInsert (descBy Prod.snd) x).Pairwise lexFabricante := by
  intro l
  induction l with
  | nil => intro _ _; exact List.pairwise_singleton _ _
  | cons y ys ih =>
    intro hl hx
    obtain ⟨hy, hys⟩ := List.pairwise_cons.mp hl
    rw [List.orderedInsert]
    by_cases h : descBy Prod.snd x y
    · rw [if_pos h]
      refine List.pairwise_cons.mpr ⟨?_, hl⟩
      intro z hz
      rcases List.mem_cons.mp hz with rfl | hz'
      · rcases lt_or_eq_of_le h with hlt | heq
        · exact Or.inl hlt
        · exact Or.inr ⟨heq.symm, hx z (List.mem_cons_self z ys)⟩
      · have hz2 : z.2 ≤ y.2 := by
          rcases hy z hz' with h1 | ⟨h1, _⟩
          · exact le_of_lt h1
          · exact le_of_eq h1.symm
        rcases lt_or_eq_of_le (le_trans hz2 h) with hlt | heq
        · exact Or.inl hlt
        · exact Or.inr ⟨heq.symm, hx z (List.mem_cons_of_mem y hz')⟩
    · rw [if_neg h]
      refine List.pairwise_cons.mpr
        ⟨?_, ih hys fun z hz => hx z (List.mem_cons_of_mem y hz)⟩
      intro z hz
      rcases (List.mem_orderedInsert _).mp hz with rfl | hz'
      · exact Or.inl (not_le.mp h)
      · exact hy z hz'

theorem insertionSort_descBy_lex :
    ∀ {l : List (String × ℚ)}, l.Pairwise (fun a b => a.1 < b.1) →
      (l.insertionSort (descBy Prod.snd)).Pairwise lexFabricante
  | [], _ => List.Pairwise.nil
  | x :: xs, h => by
    rw [List.insertionSort]
    obtain ⟨hx, hxs⟩ := List.pairwise_cons.mp h
    exact orderedInsert_descBy_lex (insertionSort_descBy_lex hxs)
      fun y hy => hx y ((List.mem_insertionSort _).mp hy)

theorem keys_sorted_strict (l : List String) :
    ((uniqueFirst l).insertionSort (ascBy (id : String → String))).Pairwise (· < ·) := by
  have hs : ((uniqueFirst l).insertionSort (ascBy (id : String → String))).Pairwise
      (ascBy (id : String → String)) := List.sorted_insertionSort _ _
  have hn : ((uniqueFirst l).insertionSort (ascBy (id : String → String))).Nodup :=
    ((List.perm_insertionSort _ _).nodup_iff).mpr (uniqueFirst_nodup l)
  exact (hs.and hn).imp fun hab => lt_of_le_of_ne hab.1 hab.2

theorem dfAgrupadoFabricante_keys_lt (df : List Registro) :
    (dfAgrupadoFabricante df).Pairwise (fun a b => a.1 < b.1) := by
  rw [dfAgrupadoFabricante]
  exact List.pairwise_map.mpr ((keys_sorted_strict _).imp fun h => h)

/-- Counterexample to claim C4: Records with manufacturers in the order `"B"`, `"A"`
and equal physical quantities: pandas `groupby` lists the groups in ascending
key order, so the top-10 view outputs `A` before `B`; the first-seen
tie-breaking the claim states would output `B` before `A`. -/
theorem top10_empate_counterexample :
    dfTop10Fabricantes [regMfB, regMfA] = [("A", 5), ("B", 5)] ∧
    dfTop10FabricantesFirstSeen [regMfB, regMfA] = [("B", 5), ("A", 5)] ∧
    dfTop10Fabricantes [regMfB, regMfA] ≠ dfTop10FabricantesFirstSeen [regMfB, regMfA] := by
  have h1 : dfTop10Fabricantes [regMfB, regMfA] = [("A", 5), ("B", 5)] := by
    simp [dfTop10Fabricantes, dfAgrupadoFabricante, uniqueFirst, regMfB, regMfA,
          List.insertionSort, List.orderedInsert, ascBy, descBy, strA_le_B, strB_not_le_A]
  have h2 : dfTop10FabricantesFirstSeen [regMfB, regMfA] = [("B", 5), ("A", 5)] := by
    simp [dfTop10FabricantesFirstSeen, dfAgrupadoFabricanteFirstSeen, uniqueFirst,
          regMfB, regMfA, List.insertionSort, List.orderedInsert, ascBy, descBy,
          strA_le_B, strB_not_le_A]
  refine ⟨h1, h2, ?_⟩
  rw [h1, h2]
  decide

/-- Claim C4 as amended: For every non-empty filtered record set, the
top-manufacturers view returns at most 10 groups; each group carries a
manufacturer present in the set together with the sum of `physical_quantity`
over the rows of that manufacturer; groups are sorted descending by summed
quantity, with ties broken by ascending manufacturer name (the order
`groupby` lists the groups in), not by first-seen order. -/
theorem dfTop10Fabricantes_amended (df : List Registro) (hdf : df ≠ []) :
    (dfTop10Fabricantes df).length ≤ 10 ∧
    (dfTop10Fabricantes df).Pairwise
      (fun a b => b.2 ≤ a.2 ∧ (a.2 = b.2 → a.1 < b.1)) ∧
    ∀ p ∈ dfTop10Fabricantes df,
      p.1 ∈ df.map (·.fabricante) ∧
      p.2 = ((df.filter (fun r => r.fabricante == p.1)).map (·.quantidadeFisica)).sum := by
  refine ⟨?_, ?_, ?_⟩
  · rw [dfTop10Fabricantes]
    exact List.length_take_le _ _
  · have hlex := insertionSort_descBy_lex (dfAgrupadoFabricante_keys_lt df)
    have htake := hlex.sublist (List.take_sublist 10 _)
    refine htake.imp fun hab => ?_
    rcases hab with hlt | ⟨heq, hlt1⟩
    · exact ⟨le_of_lt hlt, fun heq => absurd (heq ▸ hlt) (lt_irrefl _)⟩
    · exact ⟨le_of_eq heq.symm, fun _ => hlt1⟩
  · intro p hp
    have hp1 : p ∈ (dfAgrupadoFabricante df).insertionSort (descBy Prod.snd) :=
      List.mem_of_mem_take hp
    have hp2 : p ∈ dfAgrupadoFabricante df := (List.mem_insertionSort _).mp hp1
    rw [dfAgrupadoFabricante] at hp2
    obtain ⟨k, hk, hkp⟩ := List.mem_map.mp hp2
    have hkmem : k ∈ df.map (·.fabricante) :=
      mem_uniqueFirst.mp ((List.mem_insertionSort _).mp hk)
    subst hkp
    exact ⟨hkmem, rfl⟩

/-- Witness for `dfTop10Fabricantes_amended` on a concrete two-record set. -/
theorem dfTop10Fabricantes_amended_witness :
    (dfTop10Fabricantes [regMfB, regMfA]).length ≤ 10 ∧
    (dfTop10Fabricantes [regMfB, regMfA]).Pairwise
      (fun a b => b.2 ≤ a.2 ∧ (a.2 = b.2 → a.1 < b.1)) ∧
    ∀ p ∈ dfTop10Fabricantes [regMfB, regMfA],
      p.1 ∈ [regMfB, regMfA].map (·.fabricante) ∧
      p.2 = (([regMfB, regMfA].filter (fun r => r.fabricante == p.1)).map
        (·.quantidadeFisica)).sum :=
  dfTop10Fabricantes_amended [regMfB, regMfA] (by decide)

end Estoq
